import Mathlib

/-!
Verification development for the msplotly figure-synthesis engine.

The Dash callback `main_plot` in `src/msplotly/app.py` is embedded as a pure
dispatcher over a shallow model of plotly figure dictionaries: a figure is an
ordered list of traces (`data`) plus a list of layout annotations.  Functions
of the absent `plotter` module (imported as `plt` in `app.py`) and the absent
`arrow` module are modelled from the specification; each such definition says
so in its doc comment.
-/

set_option maxHeartbeats 1000000

namespace MSPlotly

/-- A color value: either a literal color string (as stored in plotly figure
dictionaries, e.g. the color-input widget value) or a symbolic sample of a
named colorscale at a rational point of its truncated domain.  The actual RGB
data of plotly colorscales lives in the external plotly library, so sampled
colors are kept symbolic. -/
inductive Color where
  | named (s : String)
  | sampled (colorscale_name : String) (t : ℚ)
deriving DecidableEq, Repr

/-- The `line` sub-dictionary of a plotly trace: outline color and width. -/
structure Line where
  color : Color
  width : ℚ
deriving DecidableEq, Repr

/-- The payload a trace carries in its `customdata`, used by the annotation
and recoloring engine to recover the source object of a trace. -/
inductive CustomData where
  | noData
  | gene (glabel : String) (x yTop yBottom : ℚ)
  | seq (accession sname fname : String) (x y : ℚ)
  | homology (identity : ℚ)
deriving DecidableEq, Repr

/-- One drawable trace of the figure: `name` doubles as the stringly-typed
category tag (for example a colorbar-legend trace is named
"colorbar legend"). -/
structure Trace where
  name : String
  fillcolor : Color
  line : Line
  customdata : CustomData
deriving DecidableEq, Repr

/-- One layout annotation (a text label); its `name` carries the category tag
("Gene annotation: ..." or "Sequence annotation: ..."). -/
structure Annot where
  name : String
  text : String
  x : ℚ
  y : ℚ
deriving DecidableEq, Repr

/-- The parts of a plotly figure dictionary the engine reads and writes:
the ordered trace list `figure{"data"}` and the layout annotations. -/
structure Figure where
  data : List Trace
  annotations : List Annot
deriving DecidableEq, Repr

/-- String prefix test used for the stringly-typed category matching. -/
def strStartsWith (s p : String) : Bool :=
  p.data.isPrefixOf s.data

/-- Update the trace at position `i` of a trace list with `f`; out-of-range
indices leave the list unchanged (callers that must fail on a bad index check
the bound themselves, mirroring the Python IndexError). -/
def setTraceAt (d : List Trace) (i : Nat) (f : Trace → Trace) : List Trace :=
  match d, i with
  | [], _ => []
  | t :: rest, 0 => f t :: rest
  | t :: rest, n + 1 => t :: setTraceAt rest n f

/-- Modelled from the spec: `plt.make_selection_effect` of the absent
`plotter` module applies the selection emphasis to the clicked trace: a
distinct outline color and an outline width greater than the default 1,
without altering the trace fill. -/
def make_selection_effect (figure : Figure) (curve_number : Nat) : Figure :=
  { figure with
      data := setTraceAt figure.data curve_number
        (fun t => { t with line := { color := .named "rgba(0,255,255,1)", width := 2 } }) }

/-- Modelled from the spec: `plt.remove_traces_by_name` of the absent
`plotter` module removes every trace whose name starts with the given
category tag. -/
def remove_traces_by_name (fig : Figure) (name : String) : Figure :=
  { fig with data := fig.data.filter (fun t => ! strStartsWith t.name name) }

/-- Modelled from the spec: `plt.remove_annotations_by_name` of the absent
`plotter` module removes every layout annotation whose name starts with the
given category tag. -/
def remove_annotations_by_name (fig : Figure) (name : String) : Figure :=
  { fig with annotations := fig.annotations.filter (fun a => ! strStartsWith a.name name) }

/-- Modelled from the spec: the sequence-label text chosen by the
annotate-sequences mode (accession, sequence name or file name). -/
def sequenceLabelText (mode accession sname fname : String) : String :=
  if mode = "accession" then accession
  else if mode = "name" then sname
  else fname

/-- The sequence labels derived from the trace list: one per trace carrying
sequence customdata, tagged "Sequence annotation:". -/
def seqLabels (d : List Trace) (mode : String) : List Annot :=
  d.filterMap (fun t =>
    match t.customdata with
    | .seq accession sname fname x y =>
        some { name := "Sequence annotation:" ++ (" " ++ sequenceLabelText mode accession sname fname),
               text := sequenceLabelText mode accession sname fname, x := x, y := y }
    | _ => none)

/-- Modelled from the spec: `plt.annotate_dna_sequences_using_trace_customdata`
of the absent `plotter` module adds one label per Sequence Track (one per
trace carrying sequence customdata), tagged "Sequence annotation:". -/
def annotate_dna_sequences_using_trace_customdata (fig : Figure) (mode : String) : Figure :=
  { fig with annotations := fig.annotations ++ seqLabels fig.data mode }

/-- The top gene labels derived from the trace list: one per trace carrying
gene customdata, tagged "Gene annotation:", placed at the gene top. -/
def geneTopLabels (d : List Trace) : List Annot :=
  d.filterMap (fun t =>
    match t.customdata with
    | .gene glabel x yTop _ =>
        some { name := "Gene annotation:" ++ (" " ++ glabel),
               text := glabel, x := x, y := yTop }
    | _ => none)

/-- The bottom gene labels derived from the trace list. -/
def geneBottomLabels (d : List Trace) : List Annot :=
  d.filterMap (fun t =>
    match t.customdata with
    | .gene glabel x _ yBottom =>
        some { name := "Gene annotation:" ++ (" " ++ glabel),
               text := glabel, x := x, y := yBottom }
    | _ => none)

/-- Modelled from the spec: `plt.annotate_genes_top_using_trace_customdata`
of the absent `plotter` module adds, above each gene arrow, a label tagged
"Gene annotation:" using the gene preferred label carried in the trace
customdata. -/
def annotate_genes_top_using_trace_customdata (fig : Figure) : Figure :=
  { fig with annotations := fig.annotations ++ geneTopLabels fig.data }

/-- Modelled from the spec: `plt.annotate_genes_bottom_using_trace_customdata`
of the absent `plotter` module adds, below each gene arrow, a label tagged
"Gene annotation:". -/
def annotate_genes_bottom_using_trace_customdata (fig : Figure) : Figure :=
  { fig with annotations := fig.annotations ++ geneBottomLabels fig.data }

/-- Whether a trace is a Sequence Track trace (carries sequence customdata). -/
def isSeqTrace (t : Trace) : Bool :=
  match t.customdata with
  | .seq _ _ _ _ _ => true
  | _ => false

/-- Modelled from the spec: `plt.toggle_scale_bar` of the absent `plotter`
module removes any scale-bar trace and, when visible, adds the single
scale-bar trace back, so at most one exists at any time. -/
def toggle_scale_bar (fig : Figure) (show_bar : Bool) : Figure :=
  let removed := { fig with data := fig.data.filter (fun t => ! strStartsWith t.name "Scale bar") }
  if show_bar then
    { removed with
        data := removed.data ++
          [{ name := "Scale bar", fillcolor := .named "black",
             line := { color := .named "black", width := 1 }, customdata := .noData }] }
  else removed

/-- Modelled from the spec: `plt.get_truncated_colorscale` of the absent
`plotter` module pairs a colorscale name with a truncation window
`[vmin, vmax]` of its normalized domain. -/
def get_truncated_colorscale (colorscale_name : String) (vmin vmax : ℚ) : String × ℚ × ℚ :=
  (colorscale_name, vmin, vmax)

/-- Modelled from the spec: the identity-to-domain mapping of the color scale
engine.  In "extreme" mode the observed lowest/highest identities map to the
ends of the truncated window, with the midpoint used when they coincide; in
"fixed" mode the raw identity on the 0-100 scale maps linearly into the
window. -/
def map_identity (identity : ℚ) (set_to_extreme : Bool)
    (obs_min obs_max vmin vmax : ℚ) : ℚ :=
  if set_to_extreme then
    if obs_min = obs_max then (vmin + vmax) / 2
    else vmin + ((identity - obs_min) / (obs_max - obs_min)) * (vmax - vmin)
  else vmin + identity / 100 * (vmax - vmin)

/-- Modelled from the spec: `plt.change_homoloy_color_traces` (sic) of the
absent `plotter` module recolors every homology trace (fill and outline)
through the truncated colorscale, leaving all other traces and every trace
name untouched. -/
def change_homoloy_color_traces (figure : Figure) (colorscale_name : String)
    (vmin_truncate vmax_truncate : ℚ) (set_colorscale_to_extreme_homologies : Bool)
    (lowest_homology highest_homology : ℚ) : Figure :=
  { figure with
      data := figure.data.map (fun t =>
        match t.customdata with
        | .homology identity =>
            let c := Color.sampled colorscale_name
              (map_identity identity set_colorscale_to_extreme_homologies
                lowest_homology highest_homology vmin_truncate vmax_truncate)
            { t with fillcolor := c, line := { t.line with color := c } }
        | _ => t) }

/-- Modelled from the spec: `plt.plot_colorbar_legend` of the absent
`plotter` module appends the single colorbar-legend trace (category tag
"colorbar legend") rendering the truncated colorscale between the two
displayed end values. -/
def plot_colorbar_legend (fig : Figure) (colorscale : String × ℚ × ℚ)
    (min_value max_value : ℚ) (set_colorscale_to_extreme_homologies : Bool) : Figure :=
  { fig with
      data := fig.data ++
        [{ name := "colorbar legend",
           fillcolor := .sampled colorscale.1 (if set_colorscale_to_extreme_homologies then min_value else colorscale.2.1),
           line := { color := .sampled colorscale.1 (if set_colorscale_to_extreme_homologies then max_value else colorscale.2.2),
                     width := 1 },
           customdata := .noData }] }

/-- The inputs of the `main_plot` callback that the embedded dispatcher
reads.  `click_data` is the curve number extracted from the plot click event;
`figure_state` is `none` when the stored figure is the falsy `{}`;
`draw_result` stands for the value `plt.make_figure_gui(USER_INPUT)` returned
by the absent `plotter` module (an oracle input: figure, lowest identity,
highest identity). -/
structure MainPlotInput where
  button_id : String
  click_data : Option Nat
  virtual : Bool
  active_tab : String
  figure_state : Option Figure
  color_input_state : Color
  selected_trace_store_state : List Nat
  select_button_state : Bool
  color_scale_state : String
  range_slider_lo : ℚ
  range_slider_hi : ℚ
  extreme_homologies_values_state : List ℚ
  is_set_to_extreme_homologies : Bool
  annotate_sequences_state : String
  annotate_genes_state : String
  scale_bar_state : String
  draw_result : Figure × ℚ × ℚ
deriving Repr

/-- The four outputs of the `main_plot` callback: the figure (none models the
falsy `{}`), the selected-trace store, the reset click data, and the stored
extreme-homology values. -/
structure MainPlotOutput where
  figure : Option Figure
  selected : List Nat
  clickOut : Option Nat
  extremes : List ℚ
deriving DecidableEq, Repr

/-- The recolor loop of the change-gene-color branch: every trace whose index
is in the selected set gets the chosen fill and outline color and outline
width 1.  The Python loop indexes `figure{"data"}{curve_number}` directly, so
an out-of-range stored index raises; the loop runs over `set(...)`, which the
index-membership formulation reproduces. -/
def recolorSelected (sel : List Nat) (c : Color) : Nat → List Trace → List Trace
  | _, [] => []
  | k, t :: rest =>
      (if k ∈ sel then { t with fillcolor := c, line := { color := c, width := 1 } } else t)
        :: recolorSelected sel c (k + 1) rest

/-- The change-gene-color branch body: recolor the traces at the stored
curve numbers; any stored index past the end of the data list raises, as the
direct Python indexing does. -/
def change_gene_color (d : List Trace) (sel : List Nat) (c : Color) : Except String (List Trace) :=
  if sel.all (fun i => i < d.length) then
    .ok (recolorSelected sel c 0 d)
  else
    .error "IndexError"

/-- The select/deselect branch of `main_plot` (app.py lines 969-994): while
the Edit tab is active, a click arrived and select mode is on, toggle the
clicked curve number in the stored selection.  A stored curve number is
removed (first occurrence) and the trace outline restored to its own fill
color and width 1; an unseen curve number is appended and the selection
emphasis applied. -/
def selectBranch (fso : Option Figure) (stored : List Nat) (curve_number : Nat)
    (ext : List ℚ) : Except String MainPlotOutput :=
  match fso with
  | none => .error "TypeError"
  | some fig =>
      if curve_number ∈ stored then
        match fig.data[curve_number]? with
        | some t =>
            .ok { figure := some { fig with
                    data := setTraceAt fig.data curve_number
                      (fun tr => { tr with line := { color := t.fillcolor, width := 1 } }) },
                  selected := stored.erase curve_number,
                  clickOut := none,
                  extremes := ext }
        | none => .error "IndexError"
      else
        .ok { figure := some (make_selection_effect fig curve_number),
              selected := stored ++ [curve_number],
              clickOut := none,
              extremes := ext }

/-- The change-homology-color branch of `main_plot` (app.py lines 924-956):
recolor the homology traces, remove the old colorbar legend, add a fresh
one.  Reading the two stored extreme values raises when fewer than two are
stored, and the `plotter` calls fail on a falsy figure. -/
def homologyColorBranch (fso : Option Figure) (stored : List Nat)
    (colorscale : String) (lo hi : ℚ) (isExt : Bool) (ext : List ℚ) :
    Except String MainPlotOutput :=
  match fso, ext with
  | some figure, e0 :: e1 :: _ =>
      let fig := change_homoloy_color_traces figure colorscale lo hi isExt e0 e1
      let fig := remove_traces_by_name fig "colorbar legend"
      let fig := plot_colorbar_legend fig (get_truncated_colorscale colorscale lo hi) e0 e1 isExt
      .ok { figure := some fig, selected := stored, clickOut := none, extremes := ext }
  | none, _ => .error "TypeError"
  | _, _ => .error "IndexError"

/-- The annotate-genes branch of `main_plot` (app.py lines 1038-1073):
remove every "Gene annotation:"-tagged label, then re-add per the placement
mode ("top", "bottom", "top-bottom", anything else adds nothing). -/
def annotateGenesBranch (fig : Figure) (mode : String) : Figure :=
  let fig := remove_annotations_by_name fig "Gene annotation:"
  if mode = "top" then annotate_genes_top_using_trace_customdata fig
  else if mode = "bottom" then annotate_genes_bottom_using_trace_customdata fig
  else if mode = "top-bottom" then
    annotate_genes_bottom_using_trace_customdata
      (annotate_genes_top_using_trace_customdata fig)
  else fig

/-- The annotate-sequences branch of `main_plot` (app.py lines 1000-1021):
remove every "Sequence annotation:"-tagged label, then re-add one label per
sequence track unless the mode is "no". -/
def annotateSequencesBranch (fig : Figure) (mode : String) : Figure :=
  let fig := remove_annotations_by_name fig "Sequence annotation:"
  if mode ≠ "no" then annotate_dna_sequences_using_trace_customdata fig mode
  else fig

/-- The embedded `main_plot` callback of app.py: the guards are checked in
the source order (draw, erase, change homology color, change gene color,
select toggle, annotate sequences, scale bar, annotate genes, fall
through). -/
def main_plot (inp : MainPlotInput) : Except String MainPlotOutput :=
  if inp.button_id = "draw-button" ∧ inp.virtual = true then
    .ok { figure := some inp.draw_result.1,
          selected := inp.selected_trace_store_state,
          clickOut := none,
          extremes := [inp.draw_result.2.1, inp.draw_result.2.2] }
  else if inp.button_id = "erase-button" then
    .ok { figure := none, selected := [], clickOut := none, extremes := [] }
  else if inp.button_id = "change-homology-color-button" then
    homologyColorBranch inp.figure_state inp.selected_trace_store_state
      inp.color_scale_state (inp.range_slider_lo / 100) (inp.range_slider_hi / 100)
      inp.is_set_to_extreme_homologies inp.extreme_homologies_values_state
  else if inp.button_id = "change-gene-color-button" then
    match inp.figure_state with
    | some fig =>
        match change_gene_color fig.data inp.selected_trace_store_state inp.color_input_state with
        | .ok d =>
            .ok { figure := some { fig with data := d }, selected := [],
                  clickOut := none, extremes := inp.extreme_homologies_values_state }
        | .error e => .error e
    | none =>
        if inp.selected_trace_store_state.isEmpty then
          .ok { figure := none, selected := [], clickOut := none,
                extremes := inp.extreme_homologies_values_state }
        else .error "TypeError"
  else if inp.active_tab = "tab-edit" ∧ inp.click_data.isSome ∧ inp.select_button_state = true then
    selectBranch inp.figure_state inp.selected_trace_store_state
      (inp.click_data.getD 0) inp.extreme_homologies_values_state
  else if inp.figure_state.isSome ∧ inp.button_id = "update-annotate-sequences-button" then
    match inp.figure_state with
    | some fig =>
        .ok { figure := some (annotateSequencesBranch fig inp.annotate_sequences_state),
              selected := inp.selected_trace_store_state, clickOut := none,
              extremes := inp.extreme_homologies_values_state }
    | none => .error "unreachable"
  else if inp.figure_state.isSome ∧ inp.button_id = "update-scale-bar-button" then
    match inp.figure_state with
    | some fig =>
        .ok { figure := some (toggle_scale_bar fig (inp.scale_bar_state = "yes")),
              selected := inp.selected_trace_store_state, clickOut := none,
              extremes := inp.extreme_homologies_values_state }
    | none => .error "unreachable"
  else if inp.figure_state.isSome ∧ inp.button_id = "update-annotate-genes-button" then
    match inp.figure_state with
    | some fig =>
        .ok { figure := some (annotateGenesBranch fig inp.annotate_genes_state),
              selected := inp.selected_trace_store_state, clickOut := none,
              extremes := inp.extreme_homologies_values_state }
    | none => .error "unreachable"
  else
    .ok { figure := inp.figure_state, selected := inp.selected_trace_store_state,
          clickOut := none, extremes := inp.extreme_homologies_values_state }

/-- The `toggle_select_button` callback of app.py (lines 1117-1127): a click
count of zero (no click yet) leaves the stored state; any click flips it;
the returned variant is "filled" when active, "outline" otherwise. -/
def toggle_select_button (n_clicks : Nat) (is_active : Bool) : String × Bool :=
  let is_active := if n_clicks ≠ 0 then !is_active else is_active
  ((if is_active then "filled" else "outline"), is_active)

/-- Modelled from the spec: the minimum arrow-head length below which an
arrow degenerates to a pure triangle.  The numeric value is internal to the
absent `arrow` module; only the degenerate/regular split depends on it. -/
def minimum_arrow_head_length : ℚ := 1

/-- Modelled from the spec: the Arrow geometry value object of the absent
`arrow` module — start x, end x, baseline y, head height, body height and
head-length fraction, oriented left-to-right or right-to-left per strand
(x1 greater than x2 for the minus strand). -/
structure Arrow where
  x1 : ℚ
  x2 : ℚ
  y : ℚ
  head_height : ℚ
  body_height : ℚ
  head_length_fraction : ℚ
deriving DecidableEq, Repr

/-- Modelled from the spec: the ordered closed outline of the arrow (shaft
plus triangular head) as parallel x and y coordinate lists, as the demo in
arrows_plotly.py consumes them.  An arrow shorter than the minimum head
length degenerates to a pure triangle. -/
def Arrow.get_coordinates (a : Arrow) : List ℚ × List ℚ :=
  let L := a.x2 - a.x1
  if |L| < minimum_arrow_head_length then
    ([a.x1, a.x1, a.x2, a.x1],
     [a.y + a.head_height / 2, a.y - a.head_height / 2, a.y, a.y + a.head_height / 2])
  else
    let xh := a.x2 - a.head_length_fraction * L
    ([a.x1, xh, xh, a.x2, xh, xh, a.x1, a.x1],
     [a.y + a.body_height / 2, a.y + a.body_height / 2, a.y + a.head_height / 2, a.y,
      a.y - a.head_height / 2, a.y - a.body_height / 2, a.y - a.body_height / 2,
      a.y + a.body_height / 2])

/-- A gene as the geometry generator consumes it: start and end in bp with
start less than end, and a strand tag. -/
structure Gene where
  start : ℚ
  stop : ℚ
  strand : String
deriving DecidableEq, Repr

/-- Modelled from the spec: `gene_to_arrow` builds the Arrow for a gene at a
track baseline under a bp-to-px scale, with the default head-length fraction
1/5 (the head occupies the final 20 percent of the length, matching the
arrows_plotly.py demo where the head height is 20 percent of the span). -/
def gene_to_arrow (g : Gene) (track_y : ℚ) (scale : ℚ) : Arrow :=
  let xs := g.start * scale
  let xe := g.stop * scale
  let hh := (xe - xs) / 5
  if g.strand = "-" then
    { x1 := xe, x2 := xs, y := track_y, head_height := hh, body_height := hh / 2,
      head_length_fraction := 1 / 5 }
  else
    { x1 := xs, x2 := xe, y := track_y, head_height := hh, body_height := hh / 2,
      head_length_fraction := 1 / 5 }

/-- The bounding-box x-range of a coordinate list (least and greatest x). -/
def xBounds (xs : List ℚ) : Option (ℚ × ℚ) :=
  match xs with
  | [] => none
  | x :: rest => some (rest.foldl min x, rest.foldl max x)

/-- The dictionary returned by the `download_plot` callback for the download
component. -/
structure DownloadData where
  base64 : Bool
  content : List Nat
  filename : String
  filetype : String
deriving DecidableEq, Repr

/-- The `download_plot` callback body (app.py lines 1205-1235): rebuild a
figure from the stored data and layout, render it through the external
kaleido engine (passed here as the `render` oracle since image encoding is
outside the core), and wrap the bytes for the download component.  A render
failure propagates as the callback failure. -/
def download_plot (render : Figure → String → ℚ → ℚ → ℚ → Except String (List Nat))
    (figure : Figure) (figure_format : String) (scale width height : ℚ) :
    Except String DownloadData :=
  match render { data := figure.data, annotations := figure.annotations }
      figure_format width height scale with
  | .ok bytes =>
      .ok { base64 := true, content := bytes,
            filename := "plot." ++ figure_format, filetype := figure_format }
  | .error e => .error e

/-- The download callback as a transformation of the session state: its only
Dash output is the download component, so the stored figure passes through
untouched whether the render succeeds or fails.  A falsy stored figure makes
the rebuild raise, mirroring the Python subscripting of None. -/
def download_plot_action (render : Figure → String → ℚ → ℚ → ℚ → Except String (List Nat))
    (figure_state : Option Figure) (figure_format : String) (scale width height : ℚ) :
    Option Figure × Except String DownloadData :=
  (figure_state,
   match figure_state with
   | some fig => download_plot render fig figure_format scale width height
   | none => .error "TypeError")

/-- A neutral input record for the `main_plot` callback; concrete scenarios
override the relevant fields. -/
def baseInput : MainPlotInput :=
  { button_id := "plot", click_data := none, virtual := false, active_tab := "tab-main",
    figure_state := none, color_input_state := .named "rgb(0, 255, 255)",
    selected_trace_store_state := [], select_button_state := false,
    color_scale_state := "Greys", range_slider_lo := 0, range_slider_hi := 75,
    extreme_homologies_values_state := [], is_set_to_extreme_homologies := false,
    annotate_sequences_state := "no", annotate_genes_state := "no",
    scale_bar_state := "yes",
    draw_result := ({ data := [], annotations := [] }, 0, 0) }

/-- A gene-arrow trace with outline matching its fill, as the figure builder
produces it. -/
def geneTrace : Trace :=
  { name := "gene1", fillcolor := .named "blue",
    line := { color := .named "blue", width := 1 },
    customdata := .gene "dnaA" 20 12 8 }

/-- A homology-ribbon trace. -/
def homologyTrace : Trace :=
  { name := "homology 87.5", fillcolor := .named "grey",
    line := { color := .named "grey", width := 1 },
    customdata := .homology (175 / 2) }

/-- A sequence-track trace carrying the sequence customdata. -/
def seqTrace : Trace :=
  { name := "seq1", fillcolor := .named "black",
    line := { color := .named "black", width := 1 },
    customdata := .seq "NC_000001" "plasmid1" "seq1.gb" 0 10 }

/-- A colorbar-legend trace (category tag "colorbar legend"). -/
def legendTrace : Trace :=
  { name := "colorbar legend", fillcolor := .named "white",
    line := { color := .named "white", width := 1 },
    customdata := .noData }

/-- A small concrete figure with one sequence track, one gene, one homology
ribbon and one legend trace. -/
def sampleFigure : Figure :=
  { data := [seqTrace, geneTrace, homologyTrace, legendTrace], annotations := [] }

/-- The concrete input of the C2 counterexample: select mode on in the Edit
tab and a click on trace 3, the colorbar-legend trace (category legend, not
gene or homology), with an empty selection. -/
def legendClickInput : MainPlotInput :=
  { baseInput with
      active_tab := "tab-edit", select_button_state := true,
      click_data := some 3, figure_state := some sampleFigure }

/-- The concrete input of the C1 witness: select mode on in the Edit tab and
a click on trace 1, the gene trace, with an empty selection. -/
def selectClickInput : MainPlotInput :=
  { baseInput with
      active_tab := "tab-edit", select_button_state := true,
      click_data := some 1, figure_state := some sampleFigure }

/-- The concrete input of the C3 witness: recolor the selected traces 1 and
2 of the sample figure. -/
def recolorInput : MainPlotInput :=
  { baseInput with
      button_id := "change-gene-color-button",
      figure_state := some sampleFigure,
      selected_trace_store_state := [1, 2] }

/-- The concrete input of the C4 witness: update the homology colorscale of
the sample figure with stored extreme identities 60 and 95. -/
def homologyColorInput : MainPlotInput :=
  { baseInput with
      button_id := "change-homology-color-button",
      figure_state := some sampleFigure,
      extreme_homologies_values_state := [60, 95] }

/-- The concrete input of the C5 witness: annotate genes top-and-bottom on
the sample figure. -/
def annotateGenesInput : MainPlotInput :=
  { baseInput with
      button_id := "update-annotate-genes-button",
      figure_state := some sampleFigure,
      annotate_genes_state := "top-bottom" }

/-- The concrete input of the C6 witness: annotate sequences by accession on
the sample figure. -/
def annotateSequencesInput : MainPlotInput :=
  { baseInput with
      button_id := "update-annotate-sequences-button",
      figure_state := some sampleFigure,
      annotate_sequences_state := "accession" }

/-! ## Helper lemmas -/

lemma isPrefixOf_append_self (l₁ l₂ : List Char) : l₁.isPrefixOf (l₁ ++ l₂) = true := by
  induction l₁ with
  | nil => simp [List.isPrefixOf]
  | cons a as ih => simp [List.isPrefixOf, ih]

lemma strStartsWith_append (p s : String) : strStartsWith (p ++ s) p = true := by
  simp [strStartsWith, String.data_append, isPrefixOf_append_self]

lemma length_setTraceAt (d : List Trace) (i : Nat) (f : Trace → Trace) :
    (setTraceAt d i f).length = d.length := by
  induction d generalizing i with
  | nil => simp [setTraceAt]
  | cons t rest ih =>
      cases i with
      | zero => simp [setTraceAt]
      | succ n => simp [setTraceAt, ih]

lemma setTraceAt_setTraceAt (d : List Trace) (i : Nat) (f g : Trace → Trace) :
    setTraceAt (setTraceAt d i f) i g = setTraceAt d i (fun t => g (f t)) := by
  induction d generalizing i with
  | nil => simp [setTraceAt]
  | cons t rest ih =>
      cases i with
      | zero => simp [setTraceAt]
      | succ n => simp [setTraceAt, ih]

lemma getElem?_setTraceAt_self (d : List Trace) (i : Nat) (f : Trace → Trace) :
    (setTraceAt d i f)[i]? = d[i]?.map f := by
  induction d generalizing i with
  | nil => simp [setTraceAt]
  | cons t rest ih =>
      cases i with
      | zero => simp [setTraceAt]
      | succ n => simpa [setTraceAt] using ih n

lemma setTraceAt_eq_self (d : List Trace) (i : Nat) (f : Trace → Trace)
    (h : ∀ t, d[i]? = some t → f t = t) : setTraceAt d i f = d := by
  induction d generalizing i with
  | nil => simp [setTraceAt]
  | cons t rest ih =>
      cases i with
      | zero => simp [setTraceAt, h t (by simp)]
      | succ n =>
          simp only [setTraceAt, List.cons.injEq, true_and]
          exact ih n (fun t' ht' => h t' (by simpa using ht'))

lemma erase_append_singleton (s : List Nat) (i : Nat) (h : i ∉ s) :
    (s ++ [i]).erase i = s := by
  rw [List.erase_append_right _ h]
  simp

lemma length_recolorSelected (sel : List Nat) (c : Color) (k : Nat) (d : List Trace) :
    (recolorSelected sel c k d).length = d.length := by
  induction d generalizing k with
  | nil => rfl
  | cons t rest ih => simp [recolorSelected, ih]

lemma recolorSelected_nil_sel (c : Color) (k : Nat) (d : List Trace) :
    recolorSelected [] c k d = d := by
  induction d generalizing k with
  | nil => rfl
  | cons t rest ih => simp [recolorSelected, ih]

lemma getElem?_recolorSelected (sel : List Nat) (c : Color) (k : Nat) (d : List Trace)
    (j : Nat) :
    (recolorSelected sel c k d)[j]? = d[j]?.map (fun t =>
      if k + j ∈ sel then { t with fillcolor := c, line := { color := c, width := 1 } }
      else t) := by
  induction d generalizing k j with
  | nil => simp [recolorSelected]
  | cons t rest ih =>
      cases j with
      | zero => simp [recolorSelected]
      | succ n =>
          simp only [recolorSelected, List.getElem?_cons_succ, ih (k + 1) n]
          have : k + 1 + n = k + (n + 1) := by omega
          rw [this]

lemma filter_append_tagged {α} (q : α → Bool) (a new : List α)
    (h : ∀ x ∈ new, q x = false) :
    (a ++ new).filter q = a.filter q := by
  have hnil : new.filter q = [] :=
    List.filter_eq_nil_iff.mpr (fun x hx => by simp [h x hx])
  rw [List.filter_append, hnil, List.append_nil]

lemma filter_idem {α} (q : α → Bool) (l : List α) :
    (l.filter q).filter q = l.filter q := by
  induction l with
  | nil => rfl
  | cons a l ih =>
      cases hq : q a with
      | true => simp [List.filter_cons, hq, ih]
      | false => simp [List.filter_cons, hq, ih]

lemma geneTopLabels_tagged (d : List Trace) :
    ∀ x ∈ geneTopLabels d, strStartsWith x.name "Gene annotation:" = true := by
  intro x hx
  simp only [geneTopLabels, List.mem_filterMap] at hx
  obtain ⟨t, _, hfx⟩ := hx
  cases hcd : t.customdata <;> rw [hcd] at hfx <;> simp at hfx
  rw [← hfx]
  exact strStartsWith_append _ _

lemma geneBottomLabels_tagged (d : List Trace) :
    ∀ x ∈ geneBottomLabels d, strStartsWith x.name "Gene annotation:" = true := by
  intro x hx
  simp only [geneBottomLabels, List.mem_filterMap] at hx
  obtain ⟨t, _, hfx⟩ := hx
  cases hcd : t.customdata <;> rw [hcd] at hfx <;> simp at hfx
  rw [← hfx]
  exact strStartsWith_append _ _

lemma seqLabels_tagged (d : List Trace) (m : String) :
    ∀ x ∈ seqLabels d m, strStartsWith x.name "Sequence annotation:" = true := by
  intro x hx
  simp only [seqLabels, List.mem_filterMap] at hx
  obtain ⟨t, _, hfx⟩ := hx
  cases hcd : t.customdata <;> rw [hcd] at hfx <;> simp at hfx
  rw [← hfx]
  exact strStartsWith_append _ _

lemma length_seqLabels (d : List Trace) (m : String) :
    (seqLabels d m).length = d.countP isSeqTrace := by
  induction d with
  | nil => rfl
  | cons t rest ih =>
      simp only [seqLabels] at ih
      cases hcd : t.customdata <;>
        simp [seqLabels, List.filterMap_cons, hcd, List.countP_cons, isSeqTrace, ih]

lemma annotateSequencesBranch_data (fig : Figure) (m : String) :
    (annotateSequencesBranch fig m).data = fig.data := by
  unfold annotateSequencesBranch annotate_dna_sequences_using_trace_customdata
    remove_annotations_by_name
  split <;> rfl

lemma annotateGenesBranch_data (fig : Figure) (m : String) :
    (annotateGenesBranch fig m).data = fig.data := by
  unfold annotateGenesBranch annotate_genes_top_using_trace_customdata
    annotate_genes_bottom_using_trace_customdata remove_annotations_by_name
  split_ifs <;> rfl

lemma seq_tag_filter_false (d : List Trace) (m : String) :
    ∀ x ∈ seqLabels d m, (! strStartsWith x.name "Sequence annotation:") = false := by
  intro x hx
  simp [seqLabels_tagged d m x hx]

lemma annotateSequencesBranch_idem (fig : Figure) (m : String) :
    annotateSequencesBranch (annotateSequencesBranch fig m) m =
      annotateSequencesBranch fig m := by
  have hns : (seqLabels fig.data m).filter
      (fun a => ! strStartsWith a.name "Sequence annotation:") = [] :=
    List.filter_eq_nil_iff.mpr (fun x hx => by simp [seqLabels_tagged fig.data m x hx])
  by_cases hm : m = "no"
  · subst hm
    simp [annotateSequencesBranch, remove_annotations_by_name,
      annotate_dna_sequences_using_trace_customdata, filter_idem]
  · simp [annotateSequencesBranch, remove_annotations_by_name,
      annotate_dna_sequences_using_trace_customdata, hm, hns, filter_idem]

lemma annotateGenesBranch_idem (fig : Figure) (m : String) :
    annotateGenesBranch (annotateGenesBranch fig m) m = annotateGenesBranch fig m := by
  have hnt : (geneTopLabels fig.data).filter
      (fun a => ! strStartsWith a.name "Gene annotation:") = [] :=
    List.filter_eq_nil_iff.mpr (fun x hx => by simp [geneTopLabels_tagged fig.data x hx])
  have hnb : (geneBottomLabels fig.data).filter
      (fun a => ! strStartsWith a.name "Gene annotation:") = [] :=
    List.filter_eq_nil_iff.mpr (fun x hx => by simp [geneBottomLabels_tagged fig.data x hx])
  by_cases h1 : m = "top"
  · subst h1
    simp [annotateGenesBranch, remove_annotations_by_name,
      annotate_genes_top_using_trace_customdata,
      annotate_genes_bottom_using_trace_customdata, hnt, hnb, filter_idem]
  by_cases h2 : m = "bottom"
  · subst h2
    simp [annotateGenesBranch, remove_annotations_by_name,
      annotate_genes_top_using_trace_customdata,
      annotate_genes_bottom_using_trace_customdata, hnt, hnb, filter_idem]
  by_cases h3 : m = "top-bottom"
  · subst h3
    simp [annotateGenesBranch, remove_annotations_by_name,
      annotate_genes_top_using_trace_customdata,
      annotate_genes_bottom_using_trace_customdata, hnt, hnb, filter_idem]
  · simp [annotateGenesBranch, remove_annotations_by_name, h1, h2, h3, filter_idem]

lemma main_plot_select_eq (inp : MainPlotInput) (i : Nat)
    (hbtn : inp.button_id = "plot") (htab : inp.active_tab = "tab-edit")
    (hsel : inp.select_button_state = true) (hclick : inp.click_data = some i) :
    main_plot inp = selectBranch inp.figure_state inp.selected_trace_store_state i
      inp.extreme_homologies_values_state := by
  simp [main_plot, hbtn, htab, hsel, hclick]

lemma selectBranch_not_mem (fig : Figure) (stored : List Nat) (i : Nat) (ext : List ℚ)
    (h : i ∉ stored) :
    selectBranch (some fig) stored i ext =
      .ok { figure := some (make_selection_effect fig i), selected := stored ++ [i],
            clickOut := none, extremes := ext } := by
  simp [selectBranch, h]

lemma selectBranch_mem (fig : Figure) (stored : List Nat) (i : Nat) (ext : List ℚ)
    (t : Trace) (h : i ∈ stored) (ht : fig.data[i]? = some t) :
    selectBranch (some fig) stored i ext =
      .ok { figure := some { fig with
              data := setTraceAt fig.data i
                (fun tr => { tr with line := { color := t.fillcolor, width := 1 } }) },
            selected := stored.erase i, clickOut := none, extremes := ext } := by
  simp [selectBranch, h, ht]

lemma get_coordinates_x_regular (ar : Arrow)
    (h : minimum_arrow_head_length ≤ |ar.x2 - ar.x1|) :
    (ar.get_coordinates).1 =
      [ar.x1, ar.x2 - ar.head_length_fraction * (ar.x2 - ar.x1),
       ar.x2 - ar.head_length_fraction * (ar.x2 - ar.x1), ar.x2,
       ar.x2 - ar.head_length_fraction * (ar.x2 - ar.x1),
       ar.x2 - ar.head_length_fraction * (ar.x2 - ar.x1), ar.x1, ar.x1] := by
  unfold Arrow.get_coordinates
  rw [if_neg (not_lt.mpr h)]

lemma xBounds_arrow_list (x1 x2 xh : ℚ) (h1 : x1 ≤ xh) (h2 : xh ≤ x2) :
    xBounds [x1, xh, xh, x2, xh, xh, x1, x1] = some (x1, x2) := by
  have h12 : x1 ≤ x2 := le_trans h1 h2
  unfold xBounds
  simp only [List.foldl_cons, List.foldl_nil]
  rw [min_eq_left h1, min_eq_left h1, min_eq_left h12, min_eq_left h1, min_eq_left h1,
    min_self, min_self]
  rw [max_eq_right h1, max_self, max_eq_right h2, max_eq_left h2, max_eq_left h2,
    max_eq_left h12, max_eq_left h12]

lemma xBounds_arrow_list_rev (x1 x2 xh : ℚ) (h1 : x2 ≤ xh) (h2 : xh ≤ x1) :
    xBounds [x1, xh, xh, x2, xh, xh, x1, x1] = some (x2, x1) := by
  have h12 : x2 ≤ x1 := le_trans h1 h2
  unfold xBounds
  simp only [List.foldl_cons, List.foldl_nil]
  rw [min_eq_right h2, min_self, min_eq_right h1, min_eq_left h1, min_eq_left h1,
    min_eq_left h12, min_eq_left h12]
  rw [max_eq_left h2, max_eq_left h2, max_eq_left h12, max_eq_left h2, max_eq_left h2,
    max_self, max_self]

/-! ## Claim theorems -/

/-- Claim C1: toggling the selection of the same trace index twice in
succession while in Selecting mode (select then deselect) returns the scene
to its pre-toggle visual state: the second toggle returns exactly the
original figure and selection store, and in it every trace outline color
equals the trace fill color with outline width 1. -/
theorem C1_select_toggle_twice_restores
    (inp : MainPlotInput) (i : Nat) (fig : Figure)
    (hbtn : inp.button_id = "plot")
    (htab : inp.active_tab = "tab-edit")
    (hsel : inp.select_button_state = true)
    (hclick : inp.click_data = some i)
    (hfig : inp.figure_state = some fig)
    (hnotin : i ∉ inp.selected_trace_store_state)
    (hlen : i < fig.data.length)
    (hpre : ∀ t ∈ fig.data, t.line = { color := t.fillcolor, width := 1 }) :
    ∃ fig1 sel1,
      main_plot inp = .ok { figure := some fig1, selected := sel1, clickOut := none,
                            extremes := inp.extreme_homologies_values_state } ∧
      main_plot { inp with figure_state := some fig1,
                           selected_trace_store_state := sel1 } =
        .ok { figure := some fig, selected := inp.selected_trace_store_state,
              clickOut := none, extremes := inp.extreme_homologies_values_state } ∧
      ∀ t ∈ fig.data, t.line.color = t.fillcolor ∧ t.line.width = 1 := by
  obtain ⟨t0, ht0⟩ : ∃ t0, fig.data[i]? = some t0 := by
    exact ⟨fig.data[i], List.getElem?_eq_getElem hlen⟩
  refine ⟨make_selection_effect fig i, inp.selected_trace_store_state ++ [i], ?_, ?_, ?_⟩
  · rw [main_plot_select_eq inp i hbtn htab hsel hclick, hfig,
      selectBranch_not_mem _ _ _ _ hnotin]
  · rw [main_plot_select_eq
      { inp with figure_state := some (make_selection_effect fig i),
                 selected_trace_store_state := inp.selected_trace_store_state ++ [i] }
      i hbtn htab hsel hclick]
    simp only
    have hmem : i ∈ inp.selected_trace_store_state ++ [i] := by simp
    have ht1 : (make_selection_effect fig i).data[i]? =
        some { t0 with line := { color := .named "rgba(0,255,255,1)", width := 2 } } := by
      simp [make_selection_effect, getElem?_setTraceAt_self, ht0]
    rw [selectBranch_mem _ _ _ _ _ hmem ht1]
    have hdata : setTraceAt (make_selection_effect fig i).data i
        (fun tr => { tr with line := { color := t0.fillcolor, width := 1 } }) = fig.data := by
      show setTraceAt (setTraceAt fig.data i _) i _ = fig.data
      rw [setTraceAt_setTraceAt]
      apply setTraceAt_eq_self
      intro t ht
      rw [ht0] at ht
      cases ht
      have := hpre t0 (by exact List.getElem?_mem ht0)
      cases t0 with
      | mk nm fc ln cd => simp at this; simp [this]
    have hsel1 : (inp.selected_trace_store_state ++ [i]).erase i =
        inp.selected_trace_store_state := erase_append_singleton _ _ hnotin
    rw [hdata, hsel1]
    rfl
  · intro t ht
    have := hpre t ht
    rw [this]
    exact ⟨rfl, rfl⟩

/-- Witness for C1: the double toggle on the gene trace of the sample figure
restores the figure and the empty selection. -/
theorem C1_witness :
    (1 < sampleFigure.data.length ∧
      ∀ t ∈ sampleFigure.data, t.line = { color := t.fillcolor, width := 1 }) ∧
    (∃ fig1 sel1,
      main_plot selectClickInput =
        .ok { figure := some fig1, selected := sel1, clickOut := none,
              extremes := selectClickInput.extreme_homologies_values_state } ∧
      main_plot { selectClickInput with figure_state := some fig1,
                                        selected_trace_store_state := sel1 } =
        .ok { figure := some sampleFigure,
              selected := selectClickInput.selected_trace_store_state,
              clickOut := none,
              extremes := selectClickInput.extreme_homologies_values_state } ∧
      ∀ t ∈ sampleFigure.data, t.line.color = t.fillcolor ∧ t.line.width = 1) :=
  ⟨⟨by decide, by decide⟩,
    C1_select_toggle_twice_restores selectClickInput 1 sampleFigure
      rfl rfl rfl rfl rfl (by decide) (by decide) (by decide)⟩

/-- Counterexample for C2: in select mode, a click on trace index 3 of the
sample figure — the colorbar-legend trace, a category that is neither gene
nor homology — changes the Selection Set from empty to containing 3, so a
click on a non-gene, non-homology trace does not leave the Selection Set
unchanged. -/
theorem C2_counterexample :
    (legendClickInput.figure_state.map fun f => f.data.map Trace.name) =
      some ["seq1", "gene1", "homology 87.5", "colorbar legend"] ∧
    legendClickInput.click_data = some 3 ∧
    legendClickInput.selected_trace_store_state = [] ∧
    (main_plot legendClickInput).map MainPlotOutput.selected = .ok [3] :=
  ⟨rfl, rfl, rfl, rfl⟩

/-- Claim C2 (amended): while Selecting (Edit tab active, select mode on), a
click on a trace of ANY category — legend, scale-bar and annotation traces
included, the code checks no category — toggles that trace index in the
Selection Set: an absent index is appended, a present index is removed. -/
theorem C2_amended_click_toggles_any_trace
    (inp : MainPlotInput) (i : Nat) (fig : Figure)
    (hbtn : inp.button_id = "plot")
    (htab : inp.active_tab = "tab-edit")
    (hsel : inp.select_button_state = true)
    (hclick : inp.click_data = some i)
    (hfig : inp.figure_state = some fig)
    (hlen : i < fig.data.length) :
    ∃ o, main_plot inp = .ok o ∧
      (i ∉ inp.selected_trace_store_state →
        o.selected = inp.selected_trace_store_state ++ [i]) ∧
      (i ∈ inp.selected_trace_store_state →
        o.selected = inp.selected_trace_store_state.erase i) := by
  rw [main_plot_select_eq inp i hbtn htab hsel hclick, hfig]
  by_cases hmem : i ∈ inp.selected_trace_store_state
  · obtain ⟨t0, ht0⟩ : ∃ t0, fig.data[i]? = some t0 :=
      ⟨fig.data[i], List.getElem?_eq_getElem hlen⟩
    rw [selectBranch_mem _ _ _ _ _ hmem ht0]
    exact ⟨_, rfl, fun h => absurd hmem h, fun _ => rfl⟩
  · rw [selectBranch_not_mem _ _ _ _ hmem]
    exact ⟨_, rfl, fun _ => rfl, fun h => absurd h hmem⟩

/-- Witness for the amended C2: the legend-trace click of the counterexample
input toggles index 3 into the empty selection. -/
theorem C2_witness :
    (3 < sampleFigure.data.length) ∧
    ∃ o, main_plot legendClickInput = .ok o ∧
      (3 ∉ legendClickInput.selected_trace_store_state →
        o.selected = legendClickInput.selected_trace_store_state ++ [3]) ∧
      (3 ∈ legendClickInput.selected_trace_store_state →
        o.selected = legendClickInput.selected_trace_store_state.erase 3) :=
  ⟨by decide,
    C2_amended_click_toggles_any_trace legendClickInput 3 sampleFigure
      rfl rfl rfl rfl rfl (by decide)⟩

/-- Claim C3: the bulk recolor-selected command paints fill and outline of
every trace whose index is in the Selection Set with the chosen color and
then clears the set; on an empty set it succeeds without error and leaves
every trace unchanged. -/
theorem C3_recolor_selected_and_clear
    (inp : MainPlotInput) (fig : Figure) (c : Color)
    (hbtn : inp.button_id = "change-gene-color-button")
    (hfig : inp.figure_state = some fig)
    (hc : inp.color_input_state = c)
    (hvalid : ∀ j ∈ inp.selected_trace_store_state, j < fig.data.length) :
    ∃ fig2,
      main_plot inp = .ok { figure := some fig2, selected := [], clickOut := none,
                            extremes := inp.extreme_homologies_values_state } ∧
      fig2.annotations = fig.annotations ∧
      fig2.data.length = fig.data.length ∧
      (∀ j t, fig2.data[j]? = some t →
        (j ∈ inp.selected_trace_store_state → t.fillcolor = c ∧ t.line.color = c) ∧
        (j ∉ inp.selected_trace_store_state → fig.data[j]? = some t)) ∧
      (inp.selected_trace_store_state = [] → fig2 = fig) := by
  have hall : inp.selected_trace_store_state.all
      (fun i => decide (i < fig.data.length)) = true := by
    rw [List.all_eq_true]
    intro j hj
    simpa using hvalid j hj
  refine ⟨{ fig with data := recolorSelected inp.selected_trace_store_state c 0 fig.data },
    ?_, rfl, length_recolorSelected _ _ _ _, ?_, ?_⟩
  · simp [main_plot, hbtn, hfig, hc, change_gene_color, hall]
  · intro j t ht
    rw [getElem?_recolorSelected] at ht
    simp only [Nat.zero_add] at ht
    cases hdj : fig.data[j]? with
    | none => rw [hdj] at ht; simp at ht
    | some t0 =>
        rw [hdj] at ht
        have ht' : (if j ∈ inp.selected_trace_store_state then
            { t0 with fillcolor := c, line := { color := c, width := 1 } } else t0) = t := by
          simpa using ht
        constructor
        · intro hj
          rw [if_pos hj] at ht'
          rw [← ht']
          exact ⟨rfl, rfl⟩
        · intro hj
          rw [if_neg hj] at ht'
          rw [ht']
  · intro hsel
    rw [hsel, recolorSelected_nil_sel]

/-- Witness for C3: recoloring selected traces 1 and 2 of the sample figure. -/
theorem C3_witness :
    (∀ j ∈ recolorInput.selected_trace_store_state, j < sampleFigure.data.length) ∧
    ∃ fig2,
      main_plot recolorInput = .ok { figure := some fig2, selected := [], clickOut := none,
                                     extremes := recolorInput.extreme_homologies_values_state } ∧
      fig2.annotations = sampleFigure.annotations ∧
      fig2.data.length = sampleFigure.data.length ∧
      (∀ j t, fig2.data[j]? = some t →
        (j ∈ recolorInput.selected_trace_store_state →
          t.fillcolor = .named "rgb(0, 255, 255)" ∧ t.line.color = .named "rgb(0, 255, 255)") ∧
        (j ∉ recolorInput.selected_trace_store_state → sampleFigure.data[j]? = some t)) ∧
      (recolorInput.selected_trace_store_state = [] → fig2 = sampleFigure) :=
  ⟨by decide,
    C3_recolor_selected_and_clear recolorInput sampleFigure (.named "rgb(0, 255, 255)")
      rfl rfl rfl (by decide)⟩

/-- Claim C4: every execution of the recolor-homologies action removes the
existing colorbar-legend trace before adding a new one, so after the action
the figure contains exactly one legend trace, whatever figure it started
from — repeated color-scale changes never accumulate stale legends. -/
theorem C4_single_colorbar_legend
    (inp : MainPlotInput) (fig : Figure) (lo hi : ℚ) (rest : List ℚ)
    (hbtn : inp.button_id = "change-homology-color-button")
    (hfig : inp.figure_state = some fig)
    (hext : inp.extreme_homologies_values_state = lo :: hi :: rest) :
    ∃ fig2,
      main_plot inp = .ok { figure := some fig2,
                            selected := inp.selected_trace_store_state,
                            clickOut := none, extremes := lo :: hi :: rest } ∧
      fig2.data.countP (fun t => strStartsWith t.name "colorbar legend") = 1 := by
  refine ⟨plot_colorbar_legend
      (remove_traces_by_name
        (change_homoloy_color_traces fig inp.color_scale_state (inp.range_slider_lo / 100)
          (inp.range_slider_hi / 100) inp.is_set_to_extreme_homologies lo hi)
        "colorbar legend")
      (get_truncated_colorscale inp.color_scale_state (inp.range_slider_lo / 100)
        (inp.range_slider_hi / 100))
      lo hi inp.is_set_to_extreme_homologies, ?_, ?_⟩
  · simp [main_plot, hbtn, hfig, hext, homologyColorBranch]
  · simp only [plot_colorbar_legend, remove_traces_by_name, List.countP_append]
    have h0 : (List.filter (fun t => ! strStartsWith t.name "colorbar legend")
        (change_homoloy_color_traces fig inp.color_scale_state (inp.range_slider_lo / 100)
          (inp.range_slider_hi / 100) inp.is_set_to_extreme_homologies lo hi).data).countP
        (fun t => strStartsWith t.name "colorbar legend") = 0 := by
      rw [List.countP_eq_zero]
      intro t ht
      have := (List.mem_filter.mp ht).2
      simpa using this
    rw [h0]
    rfl

/-- Witness for C4: updating the homology colorscale of the sample figure
(which already holds one legend trace) leaves exactly one legend trace. -/
theorem C4_witness :
    homologyColorInput.extreme_homologies_values_state = [60, 95] ∧
    ∃ fig2,
      main_plot homologyColorInput =
        .ok { figure := some fig2,
              selected := homologyColorInput.selected_trace_store_state,
              clickOut := none, extremes := [60, 95] } ∧
      fig2.data.countP (fun t => strStartsWith t.name "colorbar legend") = 1 :=
  ⟨rfl,
    C4_single_colorbar_legend homologyColorInput sampleFigure 60 95 []
      rfl rfl rfl⟩

/-- Claim C5: the annotate-genes action with top-and-bottom placement first
removes every "Gene annotation:"-tagged label and then adds the labels
derived from the gene traces, so applying it twice in a row yields exactly
the scene (hence the trace and annotation counts) of applying it once. -/
theorem C5_annotate_genes_idempotent
    (inp : MainPlotInput) (fig : Figure)
    (hbtn : inp.button_id = "update-annotate-genes-button")
    (hfig : inp.figure_state = some fig)
    (hmode : inp.annotate_genes_state = "top-bottom")
    (hclick : inp.click_data = none) :
    ∃ fig1,
      main_plot inp = .ok { figure := some fig1,
                            selected := inp.selected_trace_store_state,
                            clickOut := none,
                            extremes := inp.extreme_homologies_values_state } ∧
      main_plot { inp with figure_state := some fig1 } =
        .ok { figure := some fig1, selected := inp.selected_trace_store_state,
              clickOut := none, extremes := inp.extreme_homologies_values_state } ∧
      fig1.data = fig.data ∧
      fig1.annotations =
        fig.annotations.filter (fun a => ! strStartsWith a.name "Gene annotation:")
          ++ geneTopLabels fig.data ++ geneBottomLabels fig.data := by
  refine ⟨annotateGenesBranch fig "top-bottom", ?_, ?_, annotateGenesBranch_data fig _, ?_⟩
  · simp [main_plot, hbtn, hfig, hclick, hmode]
  · simp [main_plot, hbtn, hclick, hmode, annotateGenesBranch_idem]
  · simp [annotateGenesBranch, remove_annotations_by_name,
      annotate_genes_top_using_trace_customdata,
      annotate_genes_bottom_using_trace_customdata]

/-- Witness for C5: annotating genes top-and-bottom on the sample figure. -/
theorem C5_witness :
    annotateGenesInput.annotate_genes_state = "top-bottom" ∧
    ∃ fig1,
      main_plot annotateGenesInput =
        .ok { figure := some fig1,
              selected := annotateGenesInput.selected_trace_store_state,
              clickOut := none,
              extremes := annotateGenesInput.extreme_homologies_values_state } ∧
      main_plot { annotateGenesInput with figure_state := some fig1 } =
        .ok { figure := some fig1,
              selected := annotateGenesInput.selected_trace_store_state,
              clickOut := none,
              extremes := annotateGenesInput.extreme_homologies_values_state } ∧
      fig1.data = sampleFigure.data ∧
      fig1.annotations =
        sampleFigure.annotations.filter (fun a => ! strStartsWith a.name "Gene annotation:")
          ++ geneTopLabels sampleFigure.data ++ geneBottomLabels sampleFigure.data :=
  ⟨rfl,
    C5_annotate_genes_idempotent annotateGenesInput sampleFigure rfl rfl rfl rfl⟩

/-- Claim C6: for every annotation mode, the annotate-sequences action first
removes every "Sequence annotation:"-tagged label and then, unless the mode
is "no", adds exactly one label per Sequence Track; applying it twice with
the same mode yields the same scene as applying it once. -/
theorem C6_annotate_sequences_idempotent
    (inp : MainPlotInput) (fig : Figure)
    (hbtn : inp.button_id = "update-annotate-sequences-button")
    (hfig : inp.figure_state = some fig)
    (hclick : inp.click_data = none) :
    ∃ fig1,
      main_plot inp = .ok { figure := some fig1,
                            selected := inp.selected_trace_store_state,
                            clickOut := none,
                            extremes := inp.extreme_homologies_values_state } ∧
      main_plot { inp with figure_state := some fig1 } =
        .ok { figure := some fig1, selected := inp.selected_trace_store_state,
              clickOut := none, extremes := inp.extreme_homologies_values_state } ∧
      fig1.data = fig.data ∧
      (inp.annotate_sequences_state ≠ "no" →
        fig1.annotations =
          fig.annotations.filter (fun a => ! strStartsWith a.name "Sequence annotation:")
            ++ seqLabels fig.data inp.annotate_sequences_state ∧
        (seqLabels fig.data inp.annotate_sequences_state).length =
          fig.data.countP isSeqTrace) ∧
      (inp.annotate_sequences_state = "no" →
        fig1.annotations =
          fig.annotations.filter (fun a => ! strStartsWith a.name "Sequence annotation:")) := by
  refine ⟨annotateSequencesBranch fig inp.annotate_sequences_state, ?_, ?_,
    annotateSequencesBranch_data fig _, ?_, ?_⟩
  · simp [main_plot, hbtn, hfig, hclick]
  · simp [main_plot, hbtn, hclick, annotateSequencesBranch_idem]
  · intro hm
    constructor
    · simp [annotateSequencesBranch, remove_annotations_by_name,
        annotate_dna_sequences_using_trace_customdata, hm]
    · exact length_seqLabels fig.data _
  · intro hm
    simp [annotateSequencesBranch, remove_annotations_by_name, hm]

/-- Witness for C6: annotating sequences by accession on the sample figure,
which holds exactly one sequence track. -/
theorem C6_witness :
    sampleFigure.data.countP isSeqTrace = 1 ∧
    ∃ fig1,
      main_plot annotateSequencesInput =
        .ok { figure := some fig1,
              selected := annotateSequencesInput.selected_trace_store_state,
              clickOut := none,
              extremes := annotateSequencesInput.extreme_homologies_values_state } ∧
      main_plot { annotateSequencesInput with figure_state := some fig1 } =
        .ok { figure := some fig1,
              selected := annotateSequencesInput.selected_trace_store_state,
              clickOut := none,
              extremes := annotateSequencesInput.extreme_homologies_values_state } ∧
      fig1.data = sampleFigure.data ∧
      (annotateSequencesInput.annotate_sequences_state ≠ "no" →
        fig1.annotations =
          sampleFigure.annotations.filter
              (fun a => ! strStartsWith a.name "Sequence annotation:")
            ++ seqLabels sampleFigure.data annotateSequencesInput.annotate_sequences_state ∧
        (seqLabels sampleFigure.data annotateSequencesInput.annotate_sequences_state).length =
          sampleFigure.data.countP isSeqTrace) ∧
      (annotateSequencesInput.annotate_sequences_state = "no" →
        fig1.annotations =
          sampleFigure.annotations.filter
            (fun a => ! strStartsWith a.name "Sequence annotation:")) :=
  ⟨by decide,
    C6_annotate_sequences_idempotent annotateSequencesInput sampleFigure rfl rfl rfl⟩

/-- Claim C7: the select-mode machine is the two-state machine on a Bool
(false is Idle, true is Selecting); every invocation with a positive click
count flips the stored state, and with no click the machine invoked on Idle
stays Idle (returning the outline variant). -/
theorem C7_toggle_select_flips
    (n : Nat) (s : Bool) (h : 0 < n) :
    (toggle_select_button n s).2 = !s ∧
    toggle_select_button 0 false = ("outline", false) := by
  constructor
  · simp [toggle_select_button, Nat.pos_iff_ne_zero.mp h]
  · rfl

/-- Witness for C7: one click flips Idle to Selecting. -/
theorem C7_witness :
    0 < 1 ∧
    ((toggle_select_button 1 false).2 = !false ∧
      toggle_select_button 0 false = ("outline", false)) :=
  ⟨by decide, C7_toggle_select_flips 1 false (by decide)⟩

/-- Claim C8: for every gene whose rendered length is at least the minimum
arrow-head length, the arrow polygon spans exactly the x-range from
g.start to g.stop under the given scale, and on the plus strand its head
base sits at the final fifth of the length (the default head-length
fraction, so the head occupies the last 20 percent). -/
theorem C8_gene_to_arrow_bbox
    (g : Gene) (ty scale : ℚ)
    (hse : g.start < g.stop)
    (hsc : 0 < scale)
    (hmin : minimum_arrow_head_length ≤ (g.stop - g.start) * scale) :
    xBounds ((gene_to_arrow g ty scale).get_coordinates).1
      = some (g.start * scale, g.stop * scale) ∧
    (g.strand ≠ "-" →
      (((gene_to_arrow g ty scale).get_coordinates).1)[1]? =
        some (g.stop * scale - (g.stop * scale - g.start * scale) / 5)) := by
  have hab : g.start * scale < g.stop * scale := mul_lt_mul_of_pos_right hse hsc
  have hmin' : minimum_arrow_head_length ≤ g.stop * scale - g.start * scale := by
    have hexp : (g.stop - g.start) * scale = g.stop * scale - g.start * scale := by ring
    linarith [hmin, hexp.symm.le]
  have hpos : 0 < g.stop * scale - g.start * scale := by linarith
  have hminpos : 0 < minimum_arrow_head_length := by norm_num [minimum_arrow_head_length]
  by_cases h : g.strand = "-"
  · have harrow : gene_to_arrow g ty scale =
        { x1 := g.stop * scale, x2 := g.start * scale, y := ty,
          head_height := (g.stop * scale - g.start * scale) / 5,
          body_height := (g.stop * scale - g.start * scale) / 5 / 2,
          head_length_fraction := 1 / 5 } := by
      simp [gene_to_arrow, h]
    have habs : |(g.start * scale) - (g.stop * scale)| =
        g.stop * scale - g.start * scale := by
      rw [abs_sub_comm]
      exact abs_of_pos hpos
    have hcoords := get_coordinates_x_regular (gene_to_arrow g ty scale)
      (by rw [harrow]; simpa [habs] using hmin')
    rw [harrow] at hcoords
    simp only at hcoords
    constructor
    · rw [harrow, hcoords]
      have := xBounds_arrow_list_rev (g.stop * scale) (g.start * scale)
        (g.start * scale - 1 / 5 * (g.start * scale - g.stop * scale))
        (by linarith) (by linarith)
      simpa using this
    · intro hne
      exact absurd h hne
  · have harrow : gene_to_arrow g ty scale =
        { x1 := g.start * scale, x2 := g.stop * scale, y := ty,
          head_height := (g.stop * scale - g.start * scale) / 5,
          body_height := (g.stop * scale - g.start * scale) / 5 / 2,
          head_length_fraction := 1 / 5 } := by
      simp [gene_to_arrow, h]
    have habs : |(g.stop * scale) - (g.start * scale)| =
        g.stop * scale - g.start * scale := abs_of_pos hpos
    have hcoords := get_coordinates_x_regular (gene_to_arrow g ty scale)
      (by rw [harrow]; simpa [habs] using hmin')
    rw [harrow] at hcoords
    simp only at hcoords
    constructor
    · rw [harrow, hcoords]
      have := xBounds_arrow_list (g.start * scale) (g.stop * scale)
        (g.stop * scale - 1 / 5 * (g.stop * scale - g.start * scale))
        (by linarith) (by linarith)
      simpa using this
    · intro _
      rw [harrow, hcoords]
      simp only [List.getElem?_cons_succ, List.getElem?_cons_zero]
      congr 1
      ring

/-- Witness for C8: the spec scenario — gene from 10 to 30 on the plus
strand at scale 1 gives an arrow spanning x from 10 to 30 whose head base
sits at 26, the final 20 percent of the 20-px length. -/
theorem C8_witness :
    ((10 : ℚ) < 30 ∧ (0 : ℚ) < 1 ∧
      minimum_arrow_head_length ≤ ((30 : ℚ) - 10) * 1) ∧
    (xBounds ((gene_to_arrow { start := 10, stop := 30, strand := "+" } 0 1).get_coordinates).1
        = some ((10 : ℚ) * 1, (30 : ℚ) * 1) ∧
      (("+" : String) ≠ "-" →
        (((gene_to_arrow { start := 10, stop := 30, strand := "+" } 0 1).get_coordinates).1)[1]? =
          some ((30 : ℚ) * 1 - ((30 : ℚ) * 1 - 10 * 1) / 5))) ∧
    ((30 : ℚ) * 1 - ((30 : ℚ) * 1 - 10 * 1) / 5 = 26) :=
  ⟨⟨by norm_num, by norm_num, by norm_num [minimum_arrow_head_length]⟩,
    C8_gene_to_arrow_bbox { start := 10, stop := 30, strand := "+" } 0 1
      (by norm_num) (by norm_num) (by norm_num [minimum_arrow_head_length]),
    by norm_num⟩

/-- Claim C9: exporting the figure produces an opaque byte buffer through
the external render engine and leaves the stored scene unchanged — no trace
is added, removed or mutated — whether the render succeeds or fails. -/
theorem C9_download_leaves_scene_unchanged
    (render : Figure → String → ℚ → ℚ → ℚ → Except String (List Nat))
    (fso : Option Figure) (fmt : String) (scale width height : ℚ) :
    (download_plot_action render fso fmt scale width height).1 = fso ∧
    (∀ fig bs, fso = some fig → render fig fmt width height scale = .ok bs →
      (download_plot_action render fso fmt scale width height).2 =
        .ok { base64 := true, content := bs, filename := "plot." ++ fmt, filetype := fmt }) ∧
    (∀ fig e, fso = some fig → render fig fmt width height scale = .error e →
      (download_plot_action render fso fmt scale width height).2 = .error e) := by
  refine ⟨rfl, ?_, ?_⟩
  · intro fig bs hfig hr
    subst hfig
    show download_plot render fig fmt scale width height = _
    unfold download_plot
    rw [show ({ data := fig.data, annotations := fig.annotations } : Figure) = fig from rfl, hr]
  · intro fig e hfig hr
    subst hfig
    show download_plot render fig fmt scale width height = _
    unfold download_plot
    rw [show ({ data := fig.data, annotations := fig.annotations } : Figure) = fig from rfl, hr]

/-- Witness for C9: a render oracle that succeeds with four bytes leaves the
sample figure untouched and wraps the bytes for the download component. -/
theorem C9_witness :
    (download_plot_action (fun _ _ _ _ _ => .ok [137, 80, 78, 71])
        (some sampleFigure) "png" 1 1200 1000).1 = some sampleFigure ∧
    (∀ fig bs, some sampleFigure = some fig →
      (fun (_ : Figure) (_ : String) (_ : ℚ) (_ : ℚ) (_ : ℚ) =>
        (.ok [137, 80, 78, 71] : Except String (List Nat))) fig "png" 1200 1000 1 = .ok bs →
      (download_plot_action (fun _ _ _ _ _ => .ok [137, 80, 78, 71])
          (some sampleFigure) "png" 1 1200 1000).2 =
        .ok { base64 := true, content := bs, filename := "plot." ++ "png", filetype := "png" }) ∧
    (∀ fig e, some sampleFigure = some fig →
      (fun (_ : Figure) (_ : String) (_ : ℚ) (_ : ℚ) (_ : ℚ) =>
        (.ok [137, 80, 78, 71] : Except String (List Nat))) fig "png" 1200 1000 1 = .error e →
      (download_plot_action (fun _ _ _ _ _ => .ok [137, 80, 78, 71])
          (some sampleFigure) "png" 1 1200 1000).2 = .error e) :=
  C9_download_leaves_scene_unchanged (fun _ _ _ _ _ => .ok [137, 80, 78, 71])
    (some sampleFigure) "png" 1 1200 1000

/-- Claim C10: the Erase action resets all mutable figure state together —
it returns the empty (falsy) figure, the empty Selection Set and empty
stored extreme-homology values, whatever the session state was. -/
theorem C10_erase_resets_all
    (inp : MainPlotInput) (h : inp.button_id = "erase-button") :
    main_plot inp = .ok { figure := none, selected := [], clickOut := none, extremes := [] } := by
  simp [main_plot, h]

/-- Witness for C10: erasing from the neutral input. -/
theorem C10_witness :
    ({ baseInput with button_id := "erase-button" } : MainPlotInput).button_id = "erase-button" ∧
    main_plot { baseInput with button_id := "erase-button" } =
      .ok { figure := none, selected := [], clickOut := none, extremes := [] } :=
  ⟨rfl, C10_erase_resets_all { baseInput with button_id := "erase-button" } rfl⟩

end MSPlotly
